import Mathlib

/-!
Shallow embedding of the fngr presence-tracking server, translated from the
Rust sources: the request codec (src/networking/request.rs), the user registry
and its status state machine (src/userlist.rs, src/fingr-server/userlist.rs),
and the command dispatcher (src/fingr-server/main.rs).

Modelling conventions:
* `tokio::time::Instant` values are absolute timestamps in whole seconds
  (`Nat`); `Instant::elapsed` at time `now` is truncated subtraction
  `now - t`, which saturates at zero exactly as the monotonic clock does.
* The byte stream feeding the codec is the list of its lines with the line
  terminators already stripped; `read_line` past end of input yields `""`,
  matching the zero-byte read that breaks the header loop.
* Fallible file operations of the backing store are driven by a `StoreIo`
  record of outcome flags; a write either happens entirely or fails with the
  file unchanged (the source gives no partial-write atomicity anyway).
* A Rust `panic!`-free total function becomes a plain Lean function; code
  that can panic (slice indexing, `unwrap`) returns through `Out`, whose
  `crash` constructor marks the panic.
-/

namespace Fngr

/-- Outcome of a Rust computation that can return a value, return an
`anyhow::Error` (the `err` message), or panic (`crash`). -/
inductive Out (α : Type) where
  | ok : α → Out α
  | err : String → Out α
  | crash : Out α
deriving DecidableEq

/-- The fixed action enumeration of src/networking/request.rs. -/
inductive Action where
  | login
  | logoff
  | finger
  | check
  | bump
  | list
  | register
  | deregister
deriving DecidableEq

/-- `impl FromStr for Action` in src/networking/request.rs: case-sensitive
match against the eight fixed literals. -/
def Action.fromStr (s : String) : Option Action :=
  match s with
  | "finger" => some .finger
  | "login" => some .login
  | "bump" => some .bump
  | "list" => some .list
  | "register" => some .register
  | "deregister" => some .deregister
  | "logoff" => some .logoff
  | "check" => some .check
  | _ => none

/-- The parsed request of src/networking/request.rs: action plus the four
recognized query values and the Authorization header. -/
structure Request where
  action : Action
  username : Option String
  key : Option String
  auth : Option String
  finger_user : Option String
  status : Option String
deriving DecidableEq

/-- Accumulator for the query-string loop of `Request::parse`: the four
mutable `Option` locals. -/
structure QueryAcc where
  username : Option String := none
  key : Option String := none
  user : Option String := none
  status : Option String := none
deriving DecidableEq

/-- Splits at every character satisfying `p` (Rust `str::split` with a
char predicate), written structurally over the character list so that it
evaluates by reduction. -/
def splitByAux (p : Char → Bool) : List Char → List Char → List String
  | [], cur => [⟨cur.reverse⟩]
  | c :: cs, cur =>
    if p c then ⟨cur.reverse⟩ :: splitByAux p cs []
    else splitByAux p cs (c :: cur)

/-- Splits the whole string at every character satisfying `p`. -/
def splitBy (p : Char → Bool) (s : String) : List String :=
  splitByAux p s.data []

/-- Rust `str::split` with a single-character separator. -/
def splitChar (sep : Char) (s : String) : List String :=
  splitBy (fun c => c == sep) s

/-- Rust `str::starts_with`. -/
def strStartsWith (s pre : String) : Bool :=
  pre.data.isPrefixOf s.data

/-- Rust string slicing `s[n..]` at a character boundary. -/
def strDrop (s : String) (n : Nat) : String :=
  ⟨s.data.drop n⟩

/-- Rust `str::trim`: drop leading and trailing whitespace. -/
def trimChars (s : String) : String :=
  ⟨((s.data.dropWhile fun c => c.isWhitespace).reverse.dropWhile
      fun c => c.isWhitespace).reverse⟩

/-- One iteration of the query loop of `Request::parse`, applied to the result
`b` of `a.split("=")`. The source reads `b[1]` whenever `b[0]` is a
recognized key; when `b` has no second element that indexing panics, which is
the `none` result here. -/
def applySplitPair (acc : QueryAcc) (b : List String) : Option QueryAcc :=
  match b with
  | [] => some acc
  | k :: rest =>
    if k = "username" then rest.head?.map fun v => { acc with username := some v }
    else if k = "key" then rest.head?.map fun v => { acc with key := some v }
    else if k = "user" then rest.head?.map fun v => { acc with user := some v }
    else if k = "status" then rest.head?.map fun v => { acc with status := some v }
    else some acc

/-- One query pair `a`, split at `=` as in the source. -/
def applyPair (acc : QueryAcc) (a : String) : Option QueryAcc :=
  applySplitPair acc (splitChar '=' a)

/-- The query-string loop of `Request::parse`: pairs joined by `&`. -/
def parseQuery (s : String) : Option QueryAcc :=
  (splitChar '&' s).foldlM applyPair {}

/-- Rust `str::split_whitespace`: split on whitespace runs, dropping empty
pieces. -/
def splitWhitespace (s : String) : List String :=
  (splitBy (fun c => c.isWhitespace) s).filter fun t => t != ""

/-- The header loop of `Request::parse`: lines of the form `Key: Value` until
a blank line or end of input; a line without `:` is an error; the value kept
for duplicate keys is the last one, and only `Authorization` is returned. -/
def parseHeadersAuth : List String → Option String → Except String (Option String)
  | [], auth => .ok auth
  | l :: rest, auth =>
    if l = "" then .ok auth
    else
      match splitChar ':' l with
      | k :: v :: _ =>
        parseHeadersAuth rest (if k = "Authorization" then some (trimChars v) else auth)
      | _ => .error "invalid header"

/-- `Request::parse` of src/networking/request.rs over the stripped lines of
the input stream: request line `GET PATH`, path starting with `/`, action
name before an optional `?`, query pairs, then headers. -/
def Request.parse (lines : List String) : Out Request :=
  let line := lines.headD ""
  let rest := lines.tail
  match splitWhitespace line with
  | [] => .err "invalid request type"
  | m :: parts =>
    if m ≠ "GET" then .err "invalid request type"
    else
      match parts with
      | [] => .err "missing path"
      | path :: _ =>
        if strStartsWith path "/" then
          let s := splitChar '?' path
          match Action.fromStr (strDrop (s.headD "") 1) with
          | none => .err "unrecognized action"
          | some action =>
            match (if s.length ≠ 1 then parseQuery (s.getD 1 "") else some {}) with
            | none => .crash
            | some acc =>
              match parseHeadersAuth rest none with
              | .error e => .err e
              | .ok auth =>
                .ok { action := action, username := acc.username, key := acc.key,
                      auth := auth, finger_user := acc.user, status := acc.status }
        else .err "invalid action"

/-- A UUID, kept in its normalized form: 32 lowercase hex digits. Models the
`uuid` crate value used as the stored credential in
src/fingr-server/userlist.rs. -/
structure Uuid where
  hex : String
deriving DecidableEq

/-- Hex digit test for UUID parsing. -/
def hexDigit (c : Char) : Bool :=
  c.isDigit || ('a' ≤ c && c ≤ 'f') || ('A' ≤ c && c ≤ 'F')

/-- Models `Uuid::parse_str` at its interface for the two canonical textual
forms (32 hex digits, or hyphenated 8-4-4-4-12); other inputs fail. -/
def uuidParse (s : String) : Option Uuid :=
  let cs := s.data
  if cs.length = 32 && cs.all hexDigit then
    some ⟨⟨cs.map Char.toLower⟩⟩
  else
    match splitChar '-' s with
    | [a, b, c, d, e] =>
      let all := a.data ++ b.data ++ c.data ++ d.data ++ e.data
      if a.length = 8 && b.length = 4 && c.length = 4 && d.length = 4 &&
          e.length = 12 && all.all hexDigit then
        some ⟨⟨all.map Char.toLower⟩⟩
      else none
    | _ => none

/-- Models `Uuid::to_string`: the hyphenated lowercase form. -/
def Uuid.toString (u : Uuid) : String :=
  let cs := u.hex.data
  ⟨cs.take 8⟩ ++ "-" ++ ⟨(cs.drop 8).take 4⟩ ++ "-" ++ ⟨(cs.drop 12).take 4⟩ ++
    "-" ++ ⟨(cs.drop 16).take 4⟩ ++ "-" ++ ⟨cs.drop 20⟩

/-- The status projection serialized in responses (src/networking/response.rs
via `JSONStatus` of src/userlist.rs). -/
structure JSONStatus where
  online : Bool
  text : Option String
  since : Nat
deriving DecidableEq

/-- Response body values (src/networking/response.rs). -/
inductive JSONResponse where
  | error : String → JSONResponse
  | userProj : String → JSONStatus → JSONResponse
  | list : List JSONResponse → JSONResponse
  | ok : String → JSONResponse
  | log : List String → JSONResponse

/-- Response status line variants (src/networking/status.rs). -/
inductive ResponseStatus where
  | notFound
  | ok
  | unauth
  | bad
  | serverError
deriving DecidableEq

/-- A response: status code plus serialized body value
(src/networking/response.rs). -/
structure Response where
  status : ResponseStatus
  body : JSONResponse

/-- A user status record (src/userlist.rs `Status`): `since` is the instant
the current `online` value was last set. -/
structure Status where
  online : Bool
  text : Option String
  since : Nat
deriving DecidableEq

/-- `Status::default()`: offline, no text, since now. -/
def Status.default (now : Nat) : Status :=
  { online := false, text := none, since := now }

/-- A registry record (src/fingr-server/userlist.rs `User`): the stored
credential is a UUID. -/
structure User where
  username : String
  uuid : Uuid
  status : Status
  bumped : Option Nat
  log : List JSONResponse

/-- `User::online`. -/
def User.online (u : User) : Bool :=
  u.status.online

/-- `User::set_status`: replaces the whole status record and nothing else. -/
def User.set_status (u : User) (s : Status) : User :=
  { u with status := s }

/-- `User::compare_key`: UUID equality with the stored credential. -/
def User.compare_key (u : User) (key : Uuid) : Bool :=
  key == u.uuid

/-- `User::bump` at time `now`: if the user is online, set `bumped` and return
the new `self.bumped().is_some()`; otherwise leave the record unchanged and
return false. -/
def User.bump (u : User) (now : Nat) : User × Bool :=
  if u.online then
    let u2 := { u with bumped := some now }
    (u2, u2.bumped.isSome)
  else (u, false)

/-- `User::check_status` at time `now` (the per-record sweep step, identical
in src/userlist.rs and src/fingr-server/userlist.rs): a match on
`(online, time_since, bumped)` with arms `(true, 3600.., None)` and
`(true, 3600.., Some s)`. -/
def User.check_status (u : User) (now : Nat) : User :=
  match u.status.online, u.bumped with
  | true, none =>
    if 3600 ≤ now - u.status.since then
      { u with status := { u.status with online := false, since := now } }
    else u
  | true, some s =>
    if 3600 ≤ now - u.status.since then
      if 3600 ≤ now - s then
        { u with bumped := none,
                 status := { u.status with online := false, since := now } }
      else u
    else u
  | false, _ => u

/-- Association list behind the registry map; the key is the username. -/
def lookupEntries : List (String × User) → String → Option User
  | [], _ => none
  | (k, u) :: rest, name => if k = name then some u else lookupEntries rest name

/-- Pointwise update of every entry stored under `name` (the effect of
mutating through `get_mut`). -/
def updateEntries : List (String × User) → String → (User → User) → List (String × User)
  | [], _, _ => []
  | (k, u) :: rest, name, f =>
    (k, if k = name then f u else u) :: updateEntries rest name f

/-- The registry (src/fingr-server/userlist.rs `UserList`), a wrapper around
the username-to-record map. -/
structure UserList where
  entries : List (String × User)

/-- `HashMap::get`. -/
def UserList.get (ul : UserList) (name : String) : Option User :=
  lookupEntries ul.entries name

/-- `HashMap::contains_key`. -/
def UserList.contains_key (ul : UserList) (name : String) : Bool :=
  (ul.get name).isSome

/-- Mutation through `HashMap::get_mut`. -/
def UserList.update (ul : UserList) (name : String) (f : User → User) : UserList :=
  ⟨updateEntries ul.entries name f⟩

/-- `HashMap::insert` (replaces an existing binding, else appends). -/
def UserList.insert (ul : UserList) (name : String) (u : User) : UserList :=
  if ul.contains_key name then ul.update name fun _ => u
  else ⟨ul.entries ++ [(name, u)]⟩

/-- `HashMap::remove`, drop the binding of `name`. -/
def UserList.removeKey (ul : UserList) (name : String) : UserList :=
  ⟨ul.entries.filter fun p => p.1 != name⟩

/-- `UserList::check_statuses`: the sweep applies `check_status` to every
record. -/
def UserList.check_statuses (ul : UserList) (now : Nat) : UserList :=
  ⟨ul.entries.map fun p => (p.1, p.2.check_status now)⟩

/-- A persisted record of the backing store
(src/fingr-server/userlist.rs `InitialUser`). -/
structure InitialUser where
  username : String
  uid : String
deriving DecidableEq

/-- Outcome flags for the fallible file operations of one backing-store
interaction: `readOk` covers open, read and deserialize; `writeOk` covers
serialize, write and flush, treated as atomic. -/
structure StoreIo where
  readOk : Bool
  writeOk : Bool
deriving DecidableEq

/-- `UserList::register` (src/fingr-server/userlist.rs): conflict check, fresh
UUID (`fresh`, the external randomness), read-modify-write of the store file,
and only after a successful write the in-memory insert. On any error nothing
has changed. -/
def UserList.register (ul : UserList) (username : String) (fresh : Uuid) (now : Nat)
    (store : List InitialUser) (io : StoreIo) :
    Out (UserList × List InitialUser × Uuid) :=
  if ul.contains_key username then .err "username already taken"
  else if !io.readOk then .err "failed to read user list"
  else if !io.writeOk then .err "failed to write user list"
  else
    .ok (ul.insert username
          { username := username, uuid := fresh, status := Status.default now,
            bumped := none, log := [] },
        store ++ [{ username := username, uid := fresh.toString }], fresh)

/-- The index-shifting removal loop of `UserList::remove`
(src/userlist.rs): for each index of the original vector whose record
matches, `Vec::remove` at that index from the current vector; an
out-of-range index is the panic of `Vec::remove`. -/
def storeRemoveLoop (store : List InitialUser) (username : String) :
    Option (List InitialUser) :=
  ((store.enum.filter fun p => p.2.username == username).foldlM
    (fun acc p => if p.1 < acc.length then some (acc.eraseIdx p.1) else none)
    store)

/-- `UserList::remove` (src/userlist.rs): read the store, rewrite it without
the entry, then remove from memory; a missing in-memory entry after the
rewrite is the error path of `ok_or`. Returns the resulting store content
next to the outcome. -/
def UserList.remove (ul : UserList) (username : String) (store : List InitialUser)
    (io : StoreIo) : List InitialUser × Out UserList :=
  if !io.readOk then (store, .err "failed to read user list")
  else
    match storeRemoveLoop store username with
    | none => (store, .crash)
    | some store2 =>
      if !io.writeOk then (store, .err "failed to write user list")
      else
        match ul.get username with
        | none => (store2, .err "failed to remove user")
        | some _ => (store2, .ok (ul.removeKey username))

/-- Server configuration (src/fingr-server/config.rs), the two fields the
dispatcher reads. -/
structure Config where
  registration : Bool
  auth_key : Option String
deriving DecidableEq

/-- The server state: the `Fingr` struct of src/fingr-server/main.rs (config
and registry) together with the parsed content of the users-list file, made
explicit for state passing. -/
structure ServerState where
  config : Config
  users : UserList
  store : List InitialUser

/-- Result of `Fingr::check_key` (src/fingr-server/main.rs), flattening its
`Result<Result<String, Response>>`: `ok` is the authenticated username,
`resp` an early response, `fail` a propagated error (the `?` on
`key.parse()`). -/
inductive AuthResult where
  | ok : String → AuthResult
  | resp : Response → AuthResult
  | fail : String → AuthResult

/-- `Fingr::check_key`: requires the `username` and `key` query parameters,
looks the user up, parses the key as a UUID (a parse failure propagates), and
compares it with the stored credential. The Authorization header plays no
part. -/
def Fingr.check_key (st : ServerState) (req : Request) : AuthResult :=
  match req.username with
  | none => .resp ⟨.bad, .error "missing username"⟩
  | some username =>
    match req.key with
    | none => .resp ⟨.bad, .error "missing key"⟩
    | some key =>
      match st.users.get username with
      | none => .resp ⟨.notFound, .error "unknown username"⟩
      | some user =>
        match uuidParse key with
        | none => .fail "invalid uuid"
        | some k =>
          if user.compare_key k then .ok username
          else .resp ⟨.unauth, .error "invalid username or key"⟩

/-- `Fingr::change_online_status`: authenticate, then replace the status of
the named user with `{online := status, text := req.status or previous,
since := now}`; the `bumped` field is not touched. -/
def Fingr.change_online_status (st : ServerState) (req : Request) (now : Nat)
    (status : Bool) : ServerState × Out Response :=
  match Fingr.check_key st req with
  | .fail e => (st, .err e)
  | .resp r => (st, .ok r)
  | .ok username =>
    match st.users.get username with
    | some user =>
      let ns : Status :=
        { online := status, text := req.status.or user.status.text, since := now }
      ({ st with users := st.users.update username fun u => u.set_status ns },
       .ok (if status then ⟨.ok, .ok "you are now logged on"⟩
            else ⟨.ok, .ok "you are now logged off"⟩))
    | none => (st, .ok ⟨.notFound, .error "user not found"⟩)

/-- `Fingr::login`. -/
def Fingr.login (st : ServerState) (req : Request) (now : Nat) :
    ServerState × Out Response :=
  Fingr.change_online_status st req now true

/-- `Fingr::logoff`. -/
def Fingr.logoff (st : ServerState) (req : Request) (now : Nat) :
    ServerState × Out Response :=
  Fingr.change_online_status st req now false

/-- `Fingr::check`: authenticate, then drain the visit log of the
authenticated user (the `unwrap` on the lookup is the `crash` case). -/
def Fingr.check (st : ServerState) (req : Request) : ServerState × Out Response :=
  match Fingr.check_key st req with
  | .fail e => (st, .err e)
  | .resp r => (st, .ok r)
  | .ok username =>
    match st.users.get username with
    | none => (st, .crash)
    | some user =>
      ({ st with users := st.users.update username fun u => { u with log := [] } },
       .ok ⟨.ok, .list user.log⟩)

/-- `Fingr::bump`: authenticate, call `User::bump` on the user (dropping its
boolean result), and always answer OK with the fixed string. -/
def Fingr.bump (st : ServerState) (req : Request) (now : Nat) :
    ServerState × Out Response :=
  match Fingr.check_key st req with
  | .fail e => (st, .err e)
  | .resp r => (st, .ok r)
  | .ok username =>
    match st.users.get username with
    | none => (st, .crash)
    | some user =>
      ({ st with users := st.users.update username fun _ => (user.bump now).1 },
       .ok ⟨.ok, .ok "you are bumped"⟩)

/-- The shared tail of `Fingr::register`: delegate to `UserList::register` and
answer OK with the textual form of the new credential. -/
def Fingr.registerCore (st : ServerState) (username : String) (fresh : Uuid)
    (io : StoreIo) (now : Nat) : ServerState × Out Response :=
  match UserList.register st.users username fresh now st.store io with
  | .err e => (st, .err e)
  | .crash => (st, .crash)
  | .ok (ul2, store2, uuid) =>
    ({ st with users := ul2, store := store2 }, .ok ⟨.ok, .ok uuid.toString⟩)

/-- `Fingr::register` (src/fingr-server/main.rs): Unauthorized when
registration is disabled, BadRequest without a `username`, Unauthorized when
a server auth key is configured but the request carries no `key`. When a
`key` is present its comparison with the configured auth key is computed
into the unused binding `_v` and discarded, exactly as in the source, so a
mismatched key still registers. -/
def Fingr.register (st : ServerState) (req : Request) (fresh : Uuid)
    (io : StoreIo) (now : Nat) : ServerState × Out Response :=
  if !st.config.registration then
    (st, .ok ⟨.unauth, .error "registration is not allowed on this server"⟩)
  else
    match req.username with
    | none => (st, .ok ⟨.bad, .error "a username is required to register"⟩)
    | some username =>
      match st.config.auth_key with
      | some authKey =>
        match req.key with
        | none => (st, .ok ⟨.unauth, .error "incorrect registration key"⟩)
        | some key =>
          let _v : Bool := key == authKey
          Fingr.registerCore st username fresh io now
      | none => Fingr.registerCore st username fresh io now

/-- `Fingr::deregister`: authenticate, then remove the authenticated user
from the store and the registry. -/
def Fingr.deregister (st : ServerState) (req : Request) (io : StoreIo) :
    ServerState × Out Response :=
  match Fingr.check_key st req with
  | .fail e => (st, .err e)
  | .resp r => (st, .ok r)
  | .ok username =>
    let res := UserList.remove st.users username st.store io
    match res.2 with
    | .err e => ({ st with store := res.1 }, .err e)
    | .crash => ({ st with store := res.1 }, .crash)
    | .ok ul2 =>
      ({ st with users := ul2, store := res.1 },
       .ok ⟨.ok, .ok "your account has been removed"⟩)

/-- Follows the words of the spec, for comparison with the source behavior
(claim C2): authentication in which the credential compared against the
stored secret of the named user is the value of the Authorization header. -/
def Fingr.check_key_headerSpec (st : ServerState) (req : Request) : AuthResult :=
  match req.username with
  | none => .resp ⟨.bad, .error "missing username"⟩
  | some username =>
    match req.auth with
    | none => .resp ⟨.unauth, .error "missing credential"⟩
    | some cred =>
      match st.users.get username with
      | none => .resp ⟨.notFound, .error "unknown username"⟩
      | some user =>
        match uuidParse cred with
        | none => .resp ⟨.unauth, .error "invalid username or key"⟩
        | some k =>
          if user.compare_key k then .ok username
          else .resp ⟨.unauth, .error "invalid username or key"⟩

/-! Concrete values used by the claim-level scenarios. -/

/-- The all-zero UUID in normalized form. -/
def uuidA : Uuid := ⟨"00000000000000000000000000000000"⟩

/-- The all-one UUID in normalized form, distinct from `uuidA`. -/
def uuidB : Uuid := ⟨"11111111111111111111111111111111"⟩

/-- A textual key that parses to `uuidA`. -/
def keyA : String := "00000000000000000000000000000000"

/-- A textual key that parses to `uuidB`. -/
def keyB : String := "11111111111111111111111111111111"

/-- An online user with credential `uuidA`, a status text, and a keep-alive
mark `bumped = some 5`. -/
def aliceOnline : User :=
  { username := "alice", uuid := uuidA,
    status := { online := true, text := some "hi", since := 100 },
    bumped := some 5, log := [] }

/-- An offline user with credential `uuidA`. -/
def aliceOffline : User :=
  { username := "alice", uuid := uuidA,
    status := { online := false, text := some "hi", since := 100 },
    bumped := none, log := [] }

/-- A server whose registry holds `aliceOnline`; registration open, no
server-wide auth key. -/
def stAlice : ServerState :=
  { config := { registration := true, auth_key := none },
    users := ⟨[("alice", aliceOnline)]⟩, store := [] }

/-- A server whose registry holds `aliceOffline`. -/
def stAliceOff : ServerState :=
  { config := { registration := true, auth_key := none },
    users := ⟨[("alice", aliceOffline)]⟩, store := [] }

/-- An empty open-registration server with no auth key. -/
def stEmpty : ServerState :=
  { config := { registration := true, auth_key := none },
    users := ⟨[]⟩, store := [] }

/-- A server with registration enabled and the auth key `s3cret` configured. -/
def stKeyed : ServerState :=
  { config := { registration := true, auth_key := some "s3cret" },
    users := ⟨[]⟩, store := [] }

/-- A register request for `alice` carrying the wrong server key. -/
def c1Req : Request :=
  { action := .register, username := some "alice", key := some "wrong",
    auth := none, finger_user := none, status := none }

/-- A request with a valid `key` query parameter but garbage in the
Authorization header. -/
def c2Req : Request :=
  { action := .check, username := some "alice", key := some keyA,
    auth := some "garbage", finger_user := none, status := none }

/-- An online user whose `bumped` mark predates `since`, as produced by a
logoff-then-login sequence that never cleared `bumped`. -/
def c3User : User :=
  { username := "alice", uuid := uuidA,
    status := { online := true, text := none, since := 3550 },
    bumped := some 0, log := [] }

/-- An online user with no keep-alive mark, online since time 0. -/
def c3Online : User :=
  { username := "alice", uuid := uuidA,
    status := { online := true, text := some "brb", since := 0 },
    bumped := none, log := [] }

/-- A logoff request for `alice` with her valid key. -/
def c4Req : Request :=
  { action := .logoff, username := some "alice", key := some keyA,
    auth := none, finger_user := none, status := none }

/-- A register request for `alice` with no key. -/
def regAliceReq : Request :=
  { action := .register, username := some "alice", key := none,
    auth := none, finger_user := none, status := none }

/-- An authenticated request naming `alice` but carrying no key. -/
def c7Req : Request :=
  { action := .bump, username := some "alice", key := none,
    auth := none, finger_user := none, status := none }

/-- An authenticated request naming `alice` with a well-formed but wrong
key. -/
def c7ReqB : Request :=
  { action := .bump, username := some "alice", key := some keyB,
    auth := none, finger_user := none, status := none }

/-- A bump request for `alice` with her valid key. -/
def c8Req : Request :=
  { action := .bump, username := some "alice", key := some keyA,
    auth := none, finger_user := none, status := none }

/-! Helper lemmas shared by the claim theorems. -/

/-- Looking a key up after a pointwise update yields the updated record. -/
theorem lookup_update (l : List (String × User)) (name : String) (f : User → User) :
    lookupEntries (updateEntries l name f) name = (lookupEntries l name).map f := by
  induction l with
  | nil => rfl
  | cons p rest ih =>
    obtain ⟨k, u⟩ := p
    by_cases hk : k = name
    · subst hk
      simp [updateEntries, lookupEntries]
    · simp [updateEntries, lookupEntries, hk, ih]

/-- Registry form of `lookup_update`. -/
theorem UserList.get_update (ul : UserList) (name : String) (f : User → User) :
    (ul.update name f).get name = (ul.get name).map f :=
  lookup_update ul.entries name f

/-- A successful credential check implies the authenticated username is
present in the registry. -/
theorem check_key_ok_get (st : ServerState) (req : Request) (username : String)
    (h : Fingr.check_key st req = .ok username) :
    ∃ user, st.users.get username = some user := by
  unfold Fingr.check_key at h
  repeat' split at h
  all_goals try exact AuthResult.noConfusion h
  injection h with h2
  subst h2
  exact ⟨_, by assumption⟩

/-! Claim theorems. -/

/-- C5: `bump(u)` returns true exactly when `u` is online at the time of the
call; when online it sets `bumped = now`, when offline it leaves the record
entirely unchanged; and it never changes the online flag, the status text or
`since`. -/
theorem c5_bump_spec (u : User) (now : Nat) :
    (u.bump now).2 = u.status.online ∧
    (u.bump now).1 = (if u.status.online then { u with bumped := some now } else u) ∧
    ((u.bump now).1).status = u.status := by
  cases h : u.status.online <;>
    simp [User.bump, User.online, h]

/-- C9 (amended): for a query pair that splits into the key `status` and a
value, the parser stores the value verbatim in the status field; in
particular a `+` in the value is kept, not decoded to a space. -/
theorem c9_amended_status_verbatim (acc : QueryAcc) (v : String) :
    applySplitPair acc ["status", v] = some { acc with status := some v } := rfl

/-- C9 counterexample: parsing `GET /login?status=a+b` stores the status value
`a+b` with the `+` intact, while the claim calls for `a b`. -/
theorem c9_counterexample :
    Request.parse ["GET /login?status=a+b"] =
      .ok { action := .login, username := none, key := none, auth := none,
            finger_user := none, status := some "a+b" } ∧
    (some "a+b" : Option String) ≠ some "a b" := by
  exact ⟨rfl, by decide⟩

/-- C10: evaluating the parser at a query string whose pair has no `=`
(`GET /login?username`) reaches the out-of-bounds indexing `b[1]` of the
source and panics instead of returning a request or a parse error. -/
theorem c10_query_pair_without_eq_panics :
    Request.parse ["GET /login?username"] = .crash := rfl

/-- C1: with registration enabled and the server auth key `s3cret`
configured, a register request for the new user `alice` whose `key`
parameter is `wrong` is accepted: the dispatcher answers 200 OK with the
fresh credential and inserts `alice` into both the registry and the backing
store, because the source discards the key comparison (`_v`). The claim
calls for 401 and no insertion. -/
theorem c1_register_wrong_key_accepted :
    Request.parse ["GET /register?username=alice&key=wrong"] = .ok c1Req ∧
    (some "wrong" : Option String) ≠ some "s3cret" ∧
    (Fingr.register stKeyed c1Req uuidA ⟨true, true⟩ 0).2 =
      .ok ⟨.ok, .ok (Uuid.toString uuidA)⟩ ∧
    UserList.get (Fingr.register stKeyed c1Req uuidA ⟨true, true⟩ 0).1.users "alice" =
      some { username := "alice", uuid := uuidA, status := Status.default 0,
             bumped := none, log := [] } ∧
    (Fingr.register stKeyed c1Req uuidA ⟨true, true⟩ 0).1.store =
      [{ username := "alice", uid := Uuid.toString uuidA }] := by
  exact ⟨rfl, by decide, rfl, rfl, rfl⟩

/-- C2 counterexample: with user alice holding credential `uuidA`, a request
whose `key` parameter is valid but whose Authorization header is garbage
authenticates successfully, whereas treating the Authorization header as the
compared credential (the claim) rejects it. -/
theorem c2_counterexample :
    Fingr.check_key stAlice c2Req = .ok "alice" ∧
    Fingr.check_key_headerSpec stAlice c2Req =
      .resp ⟨.unauth, .error "invalid username or key"⟩ ∧
    Fingr.check_key stAlice c2Req ≠ Fingr.check_key_headerSpec stAlice c2Req := by
  refine ⟨rfl, rfl, fun h => ?_⟩
  rw [show Fingr.check_key stAlice c2Req = .ok "alice" from rfl] at h
  rw [show Fingr.check_key_headerSpec stAlice c2Req =
        .resp ⟨.unauth, .error "invalid username or key"⟩ from rfl] at h
  exact AuthResult.noConfusion h

/-- C2 (amended): the credential compared against the stored secret of the
named user is the `key` query parameter; the Authorization header, although
it is the only header the parser stores, never affects the authentication
outcome or any authenticated handler, and the outcome of `check_key` is a
function of only the `username` and `key` fields of the request. -/
theorem c2_amended_auth_header_ignored (st : ServerState) (req : Request)
    (a : Option String) (now : Nat) (io : StoreIo) :
    Fingr.check_key st { req with auth := a } = Fingr.check_key st req ∧
    Fingr.check_key st req =
      Fingr.check_key st
        { action := req.action, username := req.username, key := req.key,
          auth := none, finger_user := none, status := none } ∧
    Fingr.login st { req with auth := a } now = Fingr.login st req now ∧
    Fingr.logoff st { req with auth := a } now = Fingr.logoff st req now ∧
    Fingr.check st { req with auth := a } = Fingr.check st req ∧
    Fingr.bump st { req with auth := a } now = Fingr.bump st req now ∧
    Fingr.deregister st { req with auth := a } io = Fingr.deregister st req io := by
  cases req
  exact ⟨rfl, rfl, rfl, rfl, rfl, rfl, rfl⟩

/-- C3 counterexample: an online record whose `bumped` mark is older than the
threshold but whose `since` is fresh (reachable because logoff and login do
not clear `bumped`) is left untouched by the sweep, while the claim calls
for a transition to offline. -/
theorem c3_counterexample :
    c3User.status.online = true ∧
    c3User.bumped = some 0 ∧
    3600 ≤ 3700 - 0 ∧
    User.check_status c3User 3700 = c3User ∧
    (User.check_status c3User 3700).status.online = true := by
  exact ⟨rfl, rfl, by decide, rfl, rfl⟩

/-- C3 (amended): a sweep at time `now` leaves every offline record
untouched; an online record transitions to offline (online=false,
since=now, bumped cleared) exactly when `now - since ≥ 3600` and in
addition either `bumped` is unset or `now - bumped ≥ 3600`; any online
record that does not transition is left entirely untouched. -/
theorem c3_amended_sweep (u : User) (now : Nat) :
    (u.status.online = false → u.check_status now = u) ∧
    (u.status.online = true →
      (((u.check_status now).status.online = false) ↔
        (3600 ≤ now - u.status.since ∧
          (u.bumped = none ∨ ∃ b, u.bumped = some b ∧ 3600 ≤ now - b))) ∧
      ((u.check_status now).status.online = false →
        u.check_status now =
          { u with bumped := none,
                   status := { u.status with online := false, since := now } }) ∧
      ((u.check_status now).status.online = true → u.check_status now = u)) := by
  obtain ⟨un, uu, ⟨onl, tx, si⟩, bmp, lg⟩ := u
  constructor
  · intro hoff
    simp only at hoff
    subst hoff
    cases bmp <;> rfl
  · intro hon
    simp only at hon
    subst hon
    cases bmp with
    | none =>
      by_cases hs : 3600 ≤ now - si
      · refine ⟨?_, ?_, ?_⟩ <;> simp [User.check_status, hs]
      · refine ⟨?_, ?_, ?_⟩ <;> simp [User.check_status, hs]
    | some b =>
      by_cases hs : 3600 ≤ now - si
      · by_cases hb : 3600 ≤ now - b
        · refine ⟨?_, ?_, ?_⟩ <;> simp [User.check_status, hs, hb]
        · refine ⟨?_, ?_, ?_⟩ <;> simp [User.check_status, hs, hb]
      · by_cases hb : 3600 ≤ now - b
        · refine ⟨?_, ?_, ?_⟩ <;> simp [User.check_status, hs, hb]
        · refine ⟨?_, ?_, ?_⟩ <;> simp [User.check_status, hs, hb]

/-- Witness for C3 (amended): an offline record survives a sweep untouched,
and an online unbumped record one hour old transitions to offline with
`since` reset to the sweep time. -/
theorem c3_amended_sweep_witness :
    User.check_status aliceOffline 9999 = aliceOffline ∧
    (User.check_status c3Online 3600).status.online = false ∧
    User.check_status c3Online 3600 =
      { c3Online with
          bumped := none,
          status := { c3Online.status with online := false, since := 3600 } } := by
  have h1 := c3_amended_sweep aliceOffline 9999
  have h2 := c3_amended_sweep c3Online 3600
  have hoff : (User.check_status c3Online 3600).status.online = false :=
    (h2.2 rfl).1.mpr ⟨by decide, Or.inl rfl⟩
  exact ⟨h1.1 rfl, hoff, (h2.2 rfl).2.1 hoff⟩

/-- C4 counterexample: logging off a user whose `bumped` mark is set leaves
the mark in place (the source `set_status` replaces only the status record),
while the claim calls for `bumped` to be cleared on the transition to
offline. -/
theorem c4_counterexample :
    (Fingr.logoff stAlice c4Req 200).2 = .ok ⟨.ok, .ok "you are now logged off"⟩ ∧
    (UserList.get (Fingr.logoff stAlice c4Req 200).1.users "alice").map User.bumped =
      some (some 5) ∧
    (some (some 5) : Option (Option Nat)) ≠ some none := by
  exact ⟨rfl, rfl, by decide⟩

/-- C4 (amended): a successful login sets the status of the user to
Online(since=now, text=request status or previous) and a successful logoff
to Offline(since=now, text likewise); neither touches the `bumped` field,
which is cleared only by the sweep. -/
theorem c4_amended_login_logoff (st : ServerState) (req : Request) (now : Nat)
    (username : String) (user : User)
    (hck : Fingr.check_key st req = .ok username)
    (hget : st.users.get username = some user) :
    ((Fingr.login st req now).2 = .ok ⟨.ok, .ok "you are now logged on"⟩ ∧
     UserList.get (Fingr.login st req now).1.users username =
       some { user with status :=
         { online := true, text := req.status.or user.status.text, since := now } } ∧
     (UserList.get (Fingr.login st req now).1.users username).map User.bumped =
       some user.bumped) ∧
    ((Fingr.logoff st req now).2 = .ok ⟨.ok, .ok "you are now logged off"⟩ ∧
     UserList.get (Fingr.logoff st req now).1.users username =
       some { user with status :=
         { online := false, text := req.status.or user.status.text, since := now } } ∧
     (UserList.get (Fingr.logoff st req now).1.users username).map User.bumped =
       some user.bumped) := by
  have hmain : ∀ b : Bool,
      Fingr.change_online_status st req now b =
        ({ st with users := st.users.update username (fun u => u.set_status
             { online := b, text := req.status.or user.status.text, since := now }) },
         .ok (if b then ⟨.ok, .ok "you are now logged on"⟩
              else ⟨.ok, .ok "you are now logged off"⟩)) := by
    intro b
    simp [Fingr.change_online_status, hck, hget]
  constructor
  · refine ⟨?_, ?_, ?_⟩ <;>
      simp [Fingr.login, hmain true, UserList.get_update, hget, User.set_status]
  · refine ⟨?_, ?_, ?_⟩ <;>
      simp [Fingr.logoff, hmain false, UserList.get_update, hget, User.set_status]

/-- Witness for C4 (amended): logging alice off answers OK and rewrites her
status to offline with the previous text and the logoff time. -/
theorem c4_amended_login_logoff_witness :
    (Fingr.logoff stAlice c4Req 200).2 = .ok ⟨.ok, .ok "you are now logged off"⟩ ∧
    UserList.get (Fingr.logoff stAlice c4Req 200).1.users "alice" =
      some { aliceOnline with status :=
        { online := false, text := some "hi", since := 200 } } := by
  have h := (c4_amended_login_logoff stAlice c4Req 200 "alice" aliceOnline rfl rfl).2
  exact ⟨h.1, h.2.1⟩

/-- C6: registration fails with the conflict error when the username is
taken, leaving registry and store unchanged; a store read or write failure
also leaves both unchanged (the in-memory insert happens only after a
successful write); on success the record is appended to the store and the
user inserted into the registry. Stated on the open-registration path. -/
theorem c6_register_conflict_and_order (st : ServerState) (req : Request)
    (fresh : Uuid) (io : StoreIo) (now : Nat) (username : String)
    (hreg : st.config.registration = true) (hak : st.config.auth_key = none)
    (hun : req.username = some username) :
    (st.users.contains_key username = true →
      Fingr.register st req fresh io now = (st, .err "username already taken")) ∧
    (st.users.contains_key username = false → io.readOk = false →
      Fingr.register st req fresh io now = (st, .err "failed to read user list")) ∧
    (st.users.contains_key username = false → io.readOk = true → io.writeOk = false →
      Fingr.register st req fresh io now = (st, .err "failed to write user list")) ∧
    (st.users.contains_key username = false → io.readOk = true → io.writeOk = true →
      Fingr.register st req fresh io now =
        ({ st with
            users := st.users.insert username
              { username := username, uuid := fresh, status := Status.default now,
                bumped := none, log := [] },
            store := st.store ++ [{ username := username, uid := fresh.toString }] },
          .ok ⟨.ok, .ok fresh.toString⟩)) := by
  refine ⟨fun hc => ?_, fun hc hr => ?_, fun hc hr hw => ?_, fun hc hr hw => ?_⟩ <;>
    simp_all [Fingr.register, Fingr.registerCore, UserList.register]

/-- Witness for C6: a duplicate registration of alice is the conflict error
with the state unchanged; on an empty server a read failure and a write
failure leave the state unchanged, and a successful run inserts bob into
registry and store. -/
theorem c6_register_conflict_and_order_witness :
    Fingr.register stAlice regAliceReq uuidB ⟨true, true⟩ 7 =
      (stAlice, .err "username already taken") ∧
    Fingr.register stEmpty regAliceReq uuidB ⟨false, false⟩ 7 =
      (stEmpty, .err "failed to read user list") ∧
    Fingr.register stEmpty regAliceReq uuidB ⟨true, false⟩ 7 =
      (stEmpty, .err "failed to write user list") ∧
    Fingr.register stEmpty regAliceReq uuidB ⟨true, true⟩ 7 =
      ({ stEmpty with
          users := stEmpty.users.insert "alice"
            { username := "alice", uuid := uuidB, status := Status.default 7,
              bumped := none, log := [] },
          store := stEmpty.store ++ [{ username := "alice", uid := uuidB.toString }] },
        .ok ⟨.ok, .ok uuidB.toString⟩) := by
  refine ⟨?_, ?_, ?_, ?_⟩
  · exact (c6_register_conflict_and_order stAlice regAliceReq uuidB ⟨true, true⟩ 7
      "alice" rfl rfl rfl).1 rfl
  · exact (c6_register_conflict_and_order stEmpty regAliceReq uuidB ⟨false, false⟩ 7
      "alice" rfl rfl rfl).2.1 rfl rfl
  · exact (c6_register_conflict_and_order stEmpty regAliceReq uuidB ⟨true, false⟩ 7
      "alice" rfl rfl rfl).2.2.1 rfl rfl rfl
  · exact (c6_register_conflict_and_order stEmpty regAliceReq uuidB ⟨true, true⟩ 7
      "alice" rfl rfl rfl).2.2.2 rfl rfl rfl

/-- C7 counterexample: a request to an authenticated action naming alice but
carrying no credential is answered 400 Bad Request, not the 401 the claim
calls for. -/
theorem c7_counterexample :
    (Fingr.check stAlice c7Req).2 = .ok ⟨.bad, .error "missing key"⟩ ∧
    ResponseStatus.bad ≠ ResponseStatus.unauth := by
  exact ⟨rfl, by decide⟩

/-- C7 (amended): for every authenticated action (login, logoff, check, bump,
deregister), a request with a username but no `key` parameter is answered
400 Bad Request, and a request whose `key` parses as a UUID that differs
from the stored credential of the named user is answered 401 Unauthorized.
(A `key` that is not a well-formed UUID instead propagates a parse error.) -/
theorem c7_amended_auth_responses (st : ServerState) (req : Request) (now : Nat)
    (io : StoreIo) :
    (∀ u, req.username = some u → req.key = none →
      ((Fingr.login st req now).2 = .ok ⟨.bad, .error "missing key"⟩ ∧
       (Fingr.logoff st req now).2 = .ok ⟨.bad, .error "missing key"⟩ ∧
       (Fingr.check st req).2 = .ok ⟨.bad, .error "missing key"⟩ ∧
       (Fingr.bump st req now).2 = .ok ⟨.bad, .error "missing key"⟩ ∧
       (Fingr.deregister st req io).2 = .ok ⟨.bad, .error "missing key"⟩)) ∧
    (∀ u k user kid, req.username = some u → req.key = some k →
        st.users.get u = some user → uuidParse k = some kid →
        user.compare_key kid = false →
      ((Fingr.login st req now).2 = .ok ⟨.unauth, .error "invalid username or key"⟩ ∧
       (Fingr.logoff st req now).2 = .ok ⟨.unauth, .error "invalid username or key"⟩ ∧
       (Fingr.check st req).2 = .ok ⟨.unauth, .error "invalid username or key"⟩ ∧
       (Fingr.bump st req now).2 = .ok ⟨.unauth, .error "invalid username or key"⟩ ∧
       (Fingr.deregister st req io).2 =
         .ok ⟨.unauth, .error "invalid username or key"⟩)) := by
  constructor
  · intro u hu hk
    have hck : Fingr.check_key st req = .resp ⟨.bad, .error "missing key"⟩ := by
      simp [Fingr.check_key, hu, hk]
    refine ⟨?_, ?_, ?_, ?_, ?_⟩ <;>
      simp [Fingr.login, Fingr.logoff, Fingr.check, Fingr.bump, Fingr.deregister,
            Fingr.change_online_status, hck]
  · intro u k user kid hu hk hg hp hc
    have hck : Fingr.check_key st req =
        .resp ⟨.unauth, .error "invalid username or key"⟩ := by
      simp [Fingr.check_key, hu, hk, hg, hp, hc]
    refine ⟨?_, ?_, ?_, ?_, ?_⟩ <;>
      simp [Fingr.login, Fingr.logoff, Fingr.check, Fingr.bump, Fingr.deregister,
            Fingr.change_online_status, hck]

/-- Witness for C7 (amended): against a server holding alice, a keyless
request gets 400 from all five handlers, and a well-formed wrong key gets
401 from all five. -/
theorem c7_amended_auth_responses_witness :
    ((Fingr.login stAlice c7Req 0).2 = .ok ⟨.bad, .error "missing key"⟩ ∧
     (Fingr.logoff stAlice c7Req 0).2 = .ok ⟨.bad, .error "missing key"⟩ ∧
     (Fingr.check stAlice c7Req).2 = .ok ⟨.bad, .error "missing key"⟩ ∧
     (Fingr.bump stAlice c7Req 0).2 = .ok ⟨.bad, .error "missing key"⟩ ∧
     (Fingr.deregister stAlice c7Req ⟨true, true⟩).2 =
       .ok ⟨.bad, .error "missing key"⟩) ∧
    ((Fingr.login stAlice c7ReqB 0).2 =
       .ok ⟨.unauth, .error "invalid username or key"⟩ ∧
     (Fingr.logoff stAlice c7ReqB 0).2 =
       .ok ⟨.unauth, .error "invalid username or key"⟩ ∧
     (Fingr.check stAlice c7ReqB).2 =
       .ok ⟨.unauth, .error "invalid username or key"⟩ ∧
     (Fingr.bump stAlice c7ReqB 0).2 =
       .ok ⟨.unauth, .error "invalid username or key"⟩ ∧
     (Fingr.deregister stAlice c7ReqB ⟨true, true⟩).2 =
       .ok ⟨.unauth, .error "invalid username or key"⟩) := by
  exact ⟨(c7_amended_auth_responses stAlice c7Req 0 ⟨true, true⟩).1 "alice" rfl rfl,
         (c7_amended_auth_responses stAlice c7ReqB 0 ⟨true, true⟩).2 "alice" keyB
           aliceOnline uuidB rfl rfl rfl rfl rfl⟩

/-- C8: whenever the credential check of a bump request succeeds, the
dispatcher answers 200 OK with the fixed confirmation string, regardless of
whether the underlying `bump` took effect. -/
theorem c8_bump_always_ok (st : ServerState) (req : Request) (now : Nat)
    (username : String) (hck : Fingr.check_key st req = .ok username) :
    (Fingr.bump st req now).2 = .ok ⟨.ok, .ok "you are bumped"⟩ := by
  obtain ⟨user, hg⟩ := check_key_ok_get st req username hck
  simp [Fingr.bump, hck, hg]

/-- Witness for C8: bumping the offline alice with her valid key still
answers OK, although no state changes. -/
theorem c8_bump_always_ok_witness :
    (UserList.get stAliceOff.users "alice").map User.online = some false ∧
    (Fingr.bump stAliceOff c8Req 9).2 = .ok ⟨.ok, .ok "you are bumped"⟩ :=
  ⟨rfl, c8_bump_always_ok stAliceOff c8Req 9 "alice" rfl⟩

end Fngr
